import Mathlib

/-!
Verification of the moonshine game-streaming host against its specification.

The development shallowly embeds the relevant Rust source files:
  * `src/webserver/pairing.rs`      — the five-step pairing HTTP handlers;
  * `src/session/manager.rs`        — the session-manager actor loop;
  * `src/session/stream/video/mod.rs` — the video UDP endpoint and command loop;
  * `moonshine/src/rtsp.rs`         — the RTSP request handlers.

Pure control flow is translated function by function.  Calls into code that
is outside these files (the client manager, `Session::new`, thread spawning,
sockets) are abstracted as explicit environment parameters recording their
outcome, so every branch of the embedded handlers mirrors a branch of the
source.  Machine integers are modelled as `Nat` with an explicit modulus
where overflow matters (`usize` arithmetic).
-/

/-! ## Common byte and hex utilities (the hex crate's decode, Rust integer parsing) -/

/-- A byte string, each entry `< 256` where it matters. -/
abbrev Bytes := List Nat

/-- Value of one hexadecimal digit, as accepted by the hex crate. -/
def hexDigitVal (c : Char) : Option Nat :=
  if c.isDigit then some (c.toNat - 48)
  else if ('a' ≤ c && c ≤ 'f') then some (c.toNat - 87)
  else if ('A' ≤ c && c ≤ 'F') then some (c.toNat - 55)
  else none

/-- `hex::decode` on a list of characters: pairs of hex digits become bytes;
an odd length or a non-hex character is an error (`none`). -/
def hexDecodeChars : List Char → Option Bytes
  | [] => some []
  | [_] => none
  | hi :: lo :: rest => do
      let h ← hexDigitVal hi
      let l ← hexDigitVal lo
      let r ← hexDecodeChars rest
      pure ((h * 16 + l) :: r)

/-- `hex::decode` on a string. -/
def hexDecode (s : String) : Option Bytes := hexDecodeChars s.data

/-- Fold a digit list into its value, failing on a non-digit. -/
def digitsVal (cs : List Char) : Option Nat :=
  cs.foldl
    (fun acc c =>
      match acc with
      | none => none
      | some n => if c.isDigit then some (n * 10 + (c.toNat - 48)) else none)
    (some 0)

/-- Rust `FromStr` for an unsigned integer type with maximum value `maxVal`:
an optional leading plus sign, then at least one decimal digit, and the value
must fit (a too-large value is a `PosOverflow` error). -/
def parseUnsigned (maxVal : Nat) (s : String) : Option Nat := do
  let cs ← match s.data with
    | [] => none
    | c :: rest =>
        if c = '+' then (if rest.isEmpty then none else some rest) else some s.data
  let n ← digitsVal cs
  if n ≤ maxVal then some n else none

/-- Rust `str::trim`: drop leading and trailing whitespace (structural
implementation over the character list, so that it evaluates by `decide`;
`Char.isWhitespace` covers the whitespace that occurs in SDP values). -/
def strTrim (s : String) : String :=
  String.mk (((s.data.dropWhile Char.isWhitespace).reverse.dropWhile Char.isWhitespace).reverse)

/-- Largest `u32` value. -/
def U32_MAX : Nat := 2 ^ 32 - 1

/-- Largest `usize` value (64-bit host). -/
def USIZE_MAX : Nat := 2 ^ 64 - 1

/-- The `usize` modulus (64-bit host). -/
def USIZE_MOD : Nat := 2 ^ 64

/-! ## Pairing HTTP handlers — `src/webserver/pairing.rs` -/

namespace Pairing

/-- An HTTP response, reduced to the parts the pairing handlers produce:
a status code and a body.  (`hyper::Response::new` defaults to status 200;
the handlers additionally set an `application/xml` content type, which does
not matter for any property below.) -/
structure HttpResponse where
  status : Nat
  body : String
  deriving DecidableEq, Repr

/-- Modelled from the spec: the helper `bad_request` lives in
`src/webserver/mod.rs`, which is not among the sources.  Per the spec
(§7, error taxonomy) protocol errors are answered with HTTP 400 carrying
the message. -/
def bad_request (message : String) : HttpResponse :=
  { status := 400, body := message }

/-- A 200 response (hyper's default status) with the given XML body. -/
def xml_response (body : String) : HttpResponse :=
  { status := 200, body := body }

/-- The request's query parameters.  `HashMap<String, String>` keys are
unique; an association list with first-match lookup models it. -/
abbrev Params := List (String × String)

/-- `params.contains_key(k)`. -/
def Params.containsKey (ps : Params) (k : String) : Bool :=
  ps.any (fun p => p.1 == k)

/-- `params.remove(k)` / `params.get(k)`: the value stored under `k`. -/
def Params.get (ps : Params) (k : String) : Option String :=
  (ps.find? (fun p => p.1 == k)).map (·.2)

/-- Outcomes of the `ClientManager` calls made by the pairing handlers.
The client manager (`src/clients.rs`) is outside the sources, so each call's
result is an explicit environment value:

  * `startPairingOk` — whether `client_manager.start_pairing` succeeded;
  * `clientChallengeResult` — `client_manager.client_challenge`'s bytes, or
    `none` on error;
  * `serverChallengeResult` — `client_manager.server_challenge_response`'s
    pairing secret, or `none` on error;
  * `checkPairingSecretOk` — whether `check_client_pairing_secret` succeeded;
  * `clientCertParses` — whether `openssl X509::from_pem` accepted the
    decoded client certificate;
  * `serverPemBytes` — the serialization `server_pem.to_pem()`, or `none`
    on error. -/
structure PairingEnv where
  startPairingOk : Bool
  clientChallengeResult : Option Bytes
  serverChallengeResult : Option Bytes
  checkPairingSecretOk : Bool
  clientCertParses : Bool
  serverPemBytes : Option Bytes

/-- Hex encoding of a byte list (`hex::encode`), lower case. -/
def hexEncode (bs : Bytes) : String :=
  String.mk (bs.flatMap (fun b => [(Nat.digitChar (b / 16 % 16)), Nat.digitChar (b % 16)]))

/-- `get_server_cert` (pairing step 1, `phrase=getservercert`).

Error messages that interpolate the remaining parameter keys with Rust
debug formatting are modelled by their fixed prefix; no property below
depends on those bodies.  After `start_pairing` succeeds, the handler
blocks on the PIN notifier and then answers with the server certificate;
the wait always completes in this model. -/
def get_server_cert (params : Params) (env : PairingEnv) : HttpResponse :=
  match params.get "clientcert" with
  | none => bad_request "Expected clientcert in get server cert request"
  | some clientCert =>
    match hexDecode clientCert with
    | none => bad_request "hex decode error"
    | some _clientCertBytes =>
      match params.get "uniqueid" with
      | none => bad_request "Expected uniqueid in get server cert request"
      | some _uniqueId =>
        match params.get "salt" with
        | none => bad_request "Expected salt in get server cert request"
        | some salt =>
          match hexDecode salt with
          | none => bad_request "hex decode error"
          | some saltBytes =>
            if saltBytes.length ≠ 16 then
              bad_request "Failed to parse salt value, expected exactly 16 values"
            else if !env.clientCertParses then
              bad_request "x509 parse error"
            else if !env.startPairingOk then
              bad_request "Failed to start pairing client"
            else
              match env.serverPemBytes with
              | none => bad_request "pem serialize error"
              | some pem =>
                  xml_response ("<root status_code=\"200\"><paired>1</paired><plaincert>"
                    ++ hexEncode pem ++ "</plaincert></root>")

/-- `client_challenge` (pairing step 2, `clientchallenge=…`). -/
def client_challenge (params : Params) (env : PairingEnv) : HttpResponse :=
  match params.get "uniqueid" with
  | none => bad_request "Expected uniqueid in get server cert request"
  | some _uniqueId =>
    match params.get "clientchallenge" with
    | none => bad_request "Expected clientchallenge in get server cert request"
    | some challenge =>
      match hexDecode challenge with
      | none => bad_request "hex decode error"
      | some _challengeBytes =>
        match env.clientChallengeResult with
        | none => bad_request "Failed to process client challenge"
        | some challengeResponse =>
            xml_response ("<root status_code=\"200\"><paired>1</paired><challengeresponse>"
              ++ hexEncode challengeResponse ++ "</challengeresponse></root>")

/-- `server_challenge_response` (pairing step 3, `serverchallengeresp=…`). -/
def server_challenge_response (params : Params) (env : PairingEnv) : HttpResponse :=
  match params.get "serverchallengeresp" with
  | none => bad_request "Expected serverchallengeresp in server challenge response request"
  | some resp =>
    match hexDecode resp with
    | none => bad_request "hex decode error"
    | some _respBytes =>
      match params.get "uniqueid" with
      | none => bad_request "Expected uniqueid in get server cert request"
      | some _uniqueId =>
        match env.serverChallengeResult with
        | none => bad_request "Failed to process server challenge response"
        | some pairingSecret =>
            xml_response ("<root status_code=\"200\"><paired>1</paired><pairingsecret>"
              ++ hexEncode pairingSecret ++ "</pairingsecret></root>")

/-- `pair_challenge` (pairing step 4, `phrase=pairchallenge`); the
`add_client` result is deliberately ignored by the source. -/
def pair_challenge (params : Params) : HttpResponse :=
  match params.get "uniqueid" with
  | none => bad_request "Expected uniqueid in pair challenge"
  | some _uniqueId =>
      xml_response "<root status_code=\"200\"><paired>1</paired></root>"

/-- `client_pairing_secret` (pairing step 5, `clientpairingsecret=…`). -/
def client_pairing_secret (params : Params) (env : PairingEnv) : HttpResponse :=
  match params.get "clientpairingsecret" with
  | none => bad_request "Expected clientpairingsecret in client pairing secret request"
  | some secret =>
    match hexDecode secret with
    | none => bad_request "hex decode error"
    | some _secretBytes =>
      match params.get "uniqueid" with
      | none => bad_request "Expected uniqueid in pair challenge"
      | some _uniqueId =>
        if !env.checkPairingSecretOk then
          bad_request "Failed to check client pairing secret"
        else
          xml_response "<root status_code=\"200\"><paired>1</paired></root>"

/-- `handle_pair_request`: dispatch on the `phrase` parameter or on the
presence of a step-specific parameter. -/
def handle_pair_request (params : Params) (env : PairingEnv) : HttpResponse :=
  if params.containsKey "phrase" then
    match params.get "phrase" with
    | some "getservercert" => get_server_cert params env
    | some "pairchallenge" => pair_challenge params
    | some unknown => bad_request ("Unknown pair phrase received: " ++ unknown)
    | none => bad_request "unreachable: containsKey guarantees a value"
  else if params.containsKey "clientchallenge" then
    client_challenge params env
  else if params.containsKey "serverchallengeresp" then
    server_challenge_response params env
  else if params.containsKey "clientpairingsecret" then
    client_pairing_secret params env
  else
    bad_request "Unknown pair command"

end Pairing

/-! ## RTSP handlers — `moonshine/src/rtsp.rs` -/

namespace Rtsp

/-- `rtsp_types::StatusCode`, restricted to the codes this server emits. -/
inductive StatusCode where
  | Ok
  | BadRequest
  | InternalServerError
  deriving DecidableEq, Repr

/-- `rtsp_types::Version` of the request, echoed into the response. -/
inductive Version where
  | V1_0
  | V2_0
  deriving DecidableEq, Repr

/-- An RTSP response as built by this server: status, echoed CSeq, and the
optional Session / Transport / Public headers, plus the body. -/
structure RtspResponse where
  status : StatusCode
  version : Version
  cseq : Int
  session : Option String
  transport : Option String
  publicHdr : Option String
  body : List Nat
  deriving DecidableEq, Repr

/-- The helper `rtsp_response(cseq, version, status)`: a bare response with
only the CSeq header. -/
def rtsp_response (cseq : Int) (version : Version) (status : StatusCode) : RtspResponse :=
  { status := status, version := version, cseq := cseq,
    session := none, transport := none, publicHdr := none, body := [] }

/-- The stream-port configuration consulted by SETUP
(`config.stream.video.port` and friends, `u16` values). -/
structure StreamPorts where
  videoPort : Nat
  audioPort : Nat
  controlPort : Nat
  deriving Repr

/-- A transport entry of the parsed `Transports` header
(`rtsp_types::headers::Transport`): the server only accepts the
`Transport::Other` variant. -/
inductive TransportEntry where
  | Rtp
  | Other
  deriving DecidableEq, Repr

/-- The pieces of a SETUP request the handler inspects:
`request.typed_header::<Transports>()` (error / absent / list) and
`request.request_uri()`'s query pairs. -/
structure SetupRequest where
  version : Version
  transports : Except Unit (Option (List TransportEntry))
  uriQuery : Option (List (String × String))

/-- Rust `s.split(sep).next().unwrap()`: the prefix of `s` up to the first
`/` (the whole string when there is none); `split` never yields an empty
iterator, so the source's `None` arm is unreachable. -/
def splitFirst (s : String) : String :=
  String.mk (s.data.takeWhile (fun c => c ≠ '/'))

/-- `handle_setup_request`. -/
def handle_setup_request (ports : StreamPorts) (request : SetupRequest) (cseq : Int) :
    RtspResponse :=
  match request.transports with
  | .error _ => rtsp_response cseq request.version .BadRequest
  | .ok none => rtsp_response cseq request.version .BadRequest
  | .ok (some transports) =>
    match transports.head? with
    | some .Other =>
      (match request.uriQuery with
      | none => rtsp_response cseq request.version .BadRequest
      | some pairs =>
        match pairs.head? with
        | none => rtsp_response cseq request.version .BadRequest
        | some query =>
          if query.1 ≠ "streamid" then
            rtsp_response cseq request.version .BadRequest
          else
            let kind := splitFirst query.2
            let port? : Option Nat :=
              if kind = "video" then some ports.videoPort
              else if kind = "audio" then some ports.audioPort
              else if kind = "control" then some ports.controlPort
              else none
            match port? with
            | none => rtsp_response cseq request.version .BadRequest
            | some port =>
              { status := .Ok, version := request.version, cseq := cseq,
                session := some "MoonshineSession;timeout = 90",
                transport := some ("server_port=" ++ toString port),
                publicHdr := none, body := [] })
    | some .Rtp => rtsp_response cseq request.version .BadRequest
    | none => rtsp_response cseq request.version .BadRequest

/-- An SDP attribute list (`sdp_types::Session` restricted to what
`get_sdp_attribute` reads): attribute names with an optional value.
`get_first_attribute_value` returns the first entry with the given name;
a present-but-valueless attribute is an error, like an absent one — both
collapse to `none` in `get_sdp_attribute`. -/
abbrev SdpSession := List (String × Option String)

/-- `get_sdp_attribute::<F>` for an unsigned integer type with maximum
`maxVal`: first value of the attribute, trimmed, then `FromStr`. -/
def get_sdp_attribute_nat (sdp : SdpSession) (attr0 : String) (maxVal : Nat) : Option Nat :=
  match sdp.find? (fun a => a.1 == attr0) with
  | none => none
  | some (_, none) => none
  | some (_, some v) => parseUnsigned maxVal (strTrim v)

/-- `get_sdp_attribute::<String>`: `String::from_str` is infallible, so this
returns the trimmed value whenever the attribute is present with a value. -/
def get_sdp_attribute_string (sdp : SdpSession) (attr0 : String) : Option String :=
  match sdp.find? (fun a => a.1 == attr0) with
  | none => none
  | some (_, none) => none
  | some (_, some v) => some (strTrim v)

/-- `VideoStreamContext` as constructed by `handle_announce_request`
(`width height fps : u32`, `packet_size bitrate : usize`,
`minimum_fec_packets : u32`, `qos : bool`). -/
structure VideoStreamContext where
  width : Nat
  height : Nat
  fps : Nat
  packet_size : Nat
  bitrate : Nat
  minimum_fec_packets : Nat
  qos : Bool
  deriving DecidableEq, Repr

/-- `AudioStreamContext` as constructed by `handle_announce_request`. -/
structure AudioStreamContext where
  packet_duration : Nat
  qos : Bool
  deriving DecidableEq, Repr

/-- The attribute-extraction part of `handle_announce_request`: read the nine
required attributes in source order; any failure is an early `return` with
status 400 (`none` here).  `bitrate *= 1024` is `usize` multiplication, hence
the modulus. -/
def announceContexts (sdp : SdpSession) : Option (VideoStreamContext × AudioStreamContext) :=
  match get_sdp_attribute_nat sdp "x-nv-video[0].clientViewportWd" U32_MAX with
  | none => none
  | some width =>
  match get_sdp_attribute_nat sdp "x-nv-video[0].clientViewportHt" U32_MAX with
  | none => none
  | some height =>
  match get_sdp_attribute_nat sdp "x-nv-video[0].maxFPS" U32_MAX with
  | none => none
  | some fps =>
  match get_sdp_attribute_nat sdp "x-nv-video[0].packetSize" USIZE_MAX with
  | none => none
  | some packet_size =>
  match get_sdp_attribute_nat sdp "x-nv-vqos[0].bw.maximumBitrateKbps" USIZE_MAX with
  | none => none
  | some bitrate =>
  match get_sdp_attribute_nat sdp "x-nv-vqos[0].fec.minRequiredFecPackets" U32_MAX with
  | none => none
  | some minimum_fec_packets =>
  match get_sdp_attribute_string sdp "x-nv-vqos[0].qosTrafficType" with
  | none => none
  | some video_qos_type =>
  match get_sdp_attribute_nat sdp "x-nv-aqos.packetDuration" U32_MAX with
  | none => none
  | some packet_duration =>
  match get_sdp_attribute_string sdp "x-nv-aqos.qosTrafficType" with
  | none => none
  | some audio_qos_type =>
    some
      ({ width := width, height := height, fps := fps, packet_size := packet_size,
         bitrate := bitrate * 1024 % USIZE_MOD, minimum_fec_packets := minimum_fec_packets,
         qos := video_qos_type != "0" },
       { packet_duration := packet_duration, qos := audio_qos_type != "0" })

/-- Result of `handle_announce_request`: the RTSP response together with the
stream contexts passed to `session_manager.set_stream_context`, when that
call was reached (`none` when the handler returned before pushing). -/
structure AnnounceResult where
  response : RtspResponse
  sent : Option (VideoStreamContext × AudioStreamContext)
  deriving DecidableEq, Repr

/-- `handle_announce_request`.  `body` is the result of
`sdp_types::Session::parse` on the request body (`none` = parse failure);
`sendOk` is whether the `SetStreamContext` channel send succeeded. -/
def handle_announce_request (version : Version) (cseq : Int) (body : Option SdpSession)
    (sendOk : Bool) : AnnounceResult :=
  match body with
  | none => { response := rtsp_response cseq version .BadRequest, sent := none }
  | some sdp =>
    match announceContexts sdp with
    | none => { response := rtsp_response cseq version .BadRequest, sent := none }
    | some contexts =>
      if sendOk then
        { response := { status := .Ok, version := version, cseq := cseq,
                        session := none, transport := none, publicHdr := none, body := [] },
          sent := some contexts }
      else
        { response := rtsp_response cseq version .InternalServerError, sent := some contexts }

end Rtsp

/-! ## Session manager — `src/session/manager.rs` -/

namespace SessionMgr

/-- Modelled from the spec: `Session` itself is defined in
`src/session/mod.rs`, which is not among the sources.  Per the spec (§3, §4.3)
a Session combines the `SessionContext` it was created from with its worker
state; `Session::new` yields it in the `Created` (not running) state and
`start_stream` moves it to `Running`.  `C` is the `SessionContext` payload,
left abstract because the manager never inspects it. -/
structure Session (C : Type) where
  context : C
  running : Bool
  deriving DecidableEq, Repr

/-- The fields of `SessionManagerInner` (`V`/`A` are the video/audio stream
context payloads, never inspected by the manager). -/
structure SessionManagerInner (C V A : Type) where
  session : Option (Session C)
  video_stream_context : Option V
  audio_stream_context : Option A
  deriving DecidableEq, Repr

/-- `Default::default()` for `SessionManagerInner`. -/
def SessionManagerInner.default (C V A : Type) : SessionManagerInner C V A :=
  { session := none, video_stream_context := none, audio_stream_context := none }

/-- One iteration of `SessionManagerInner::run`'s select loop.
`command cmd` is the command-channel arm; `stopTriggered` is the
`stop_signal.wait_shutdown_triggered()` arm, which clears the session.

Results of calls whose code is outside the sources ride on the event:
  * `InitializeSession` carries whether `Session::new` succeeded
    (`newOk = false` models its error branch, which logs and `continue`s);
  * `StartSession` carries whether `session.start_stream` succeeded; the
    source ignores the result (`let _ = …`), and on failure the modelled
    session is left as it was. -/
inductive SessionManagerEvent (C V A : Type) where
  | setStreamContext (video : V) (audio : A)
  | getSessionContext
  | initializeSession (ctx : C) (newOk : Bool)
  | startSession (startOk : Bool)
  | stopSession
  | updateKeys
  | stopTriggered

/-- The state transition performed by one iteration of
`SessionManagerInner::run` (the replies sent on oneshot channels carry no
state, so only the state is returned). -/
def sessionManagerStep {C V A : Type} (st : SessionManagerInner C V A)
    (event : SessionManagerEvent C V A) : SessionManagerInner C V A :=
  match event with
  | .stopTriggered => { st with session := none }
  | .setStreamContext video audio =>
      if st.session.isNone then st
      else { st with video_stream_context := some video, audio_stream_context := some audio }
  | .getSessionContext => st
  | .initializeSession ctx newOk =>
      if st.session.isSome then st
      else if newOk then { st with session := some { context := ctx, running := false } }
      else st
  | .startSession startOk =>
      match st.session with
      | none => st
      | some s =>
        if s.running then st
        else
          match st.video_stream_context, st.audio_stream_context with
          | some _, some _ =>
              if startOk then { st with session := some { s with running := true } } else st
          | _, _ => st
  | .stopSession =>
      match st.session with
      | some _ => { st with session := none }
      | none => st
  | .updateKeys => st

/-- Processing a whole event sequence from the default state. -/
def sessionManagerRun {C V A : Type} (events : List (SessionManagerEvent C V A)) :
    SessionManagerInner C V A :=
  events.foldl sessionManagerStep (SessionManagerInner.default C V A)

/-- Number of Sessions held by the manager (the `session` field is the only
place a `Session` is stored). -/
def sessionCount {C V A : Type} (st : SessionManagerInner C V A) : Nat :=
  match st.session with
  | some _ => 1
  | none => 0

end SessionMgr

/-! ## Video stream — `src/session/stream/video/mod.rs` -/

namespace Video

/-- A UDP peer address (opaque). -/
abbrev Addr := Nat

/-- The bytes `b"PING"`. -/
def PING : Bytes := [0x50, 0x49, 0x4E, 0x47]

/-- One iteration's input for the socket task spawned in
`VideoStreamInner::run` (the `tokio::select!` over the packet channel and
`socket.recv_from`):
  * `packet p` — `packet_rx.recv()` yielded a queued media packet;
  * `datagram payload addr` — the socket received `payload` from `addr`. -/
inductive SocketEvent where
  | packet (p : Bytes)
  | datagram (payload : Bytes) (addr : Addr)

/-- One iteration of the socket task: from the current `client_address`,
produce the new `client_address` and the list of `(packet, destination)`
sends performed.  A media packet is sent only when `client_address` is set;
a datagram equal to `b"PING"` replaces `client_address` with its source
address, and any other datagram is logged and ignored. -/
def socketStep (client_address : Option Addr) (event : SocketEvent) :
    Option Addr × List (Bytes × Addr) :=
  match event with
  | .packet p =>
      match client_address with
      | some addr => (client_address, [(p, addr)])
      | none => (client_address, [])
  | .datagram payload addr =>
      if payload = PING then (some addr, []) else (client_address, [])

/-- Run the socket task over an event trace, starting from
`client_address = None`, collecting all sends in order. -/
def socketRunFrom (client_address : Option Addr) :
    List SocketEvent → Option Addr × List (Bytes × Addr)
  | [] => (client_address, [])
  | e :: rest =>
      let (addr1, sends1) := socketStep client_address e
      let (addr2, sends2) := socketRunFrom addr1 rest
      (addr2, sends1 ++ sends2)

/-- The socket task as started by `VideoStreamInner::run`:
`client_address` starts as `None`. -/
def socketRun (events : List SocketEvent) : Option Addr × List (Bytes × Addr) :=
  socketRunFrom none events

/-- The update a single event makes to the remembered PING source address:
a PING datagram replaces it, anything else leaves it. -/
def pingUpd (acc : Option Addr) (e : SocketEvent) : Option Addr :=
  match e with
  | .datagram payload addr => if payload = PING then some addr else acc
  | .packet _ => acc

/-- The source address of the most recent PING datagram in the trace,
if any. -/
def lastPingAddr (events : List SocketEvent) : Option Addr :=
  events.foldl pingUpd none

/-- Whether the trace contains a PING datagram. -/
def hasPing (events : List SocketEvent) : Bool :=
  events.any (fun e =>
    match e with
    | .datagram payload _ => payload = PING
    | .packet _ => false)

/-- The capacity of the outbound packet channel created in
`VideoStreamInner::run`: `mpsc::channel::<Vec<u8>>(1024)`. -/
def videoPacketQueueCapacity : Nat := 1024

/-- Modelled from the spec: the encoder-side enqueue into the outbound
packet channel happens in `src/session/stream/video/encoder.rs`, which is
not among the sources.  Per the spec (§4.5, back-pressure) the queue is
bounded and drops the oldest packet on overflow, admitting the new one. -/
def enqueuePacket (queue : List Bytes) (p : Bytes) : List Bytes :=
  if queue.length < videoPacketQueueCapacity then queue ++ [p]
  else queue.tail ++ [p]

/-- Environment for one `Start` command of the `VideoStreamCommand` loop:
outcomes of the calls whose code is outside this file.  The first four
propagate an error out of `run` with `?`; the two thread spawns log and
`continue` on failure. -/
structure StartEnv where
  cudaOk : Bool
  capturerOk : Bool
  encoderOk : Bool
  buffersOk : Bool
  captureSpawnOk : Bool
  encodeSpawnOk : Bool
  deriving DecidableEq, Repr

/-- A command received on the `VideoStream` command channel
(`VideoStreamCommand`), with its environment. -/
inductive VideoCommand where
  | start (env : StartEnv)
  | requestIdrFrame
  deriving DecidableEq, Repr

/-- Observable state of the command loop in `VideoStreamInner::run`:
the `started_streaming` flag, how many capture/encode worker threads were
spawned, and how many IDR requests were forwarded to the broadcast
channel. -/
structure VideoLoopState where
  started_streaming : Bool
  captureWorkers : Nat
  encodeWorkers : Nat
  idrRequests : Nat
  deriving DecidableEq, Repr

/-- The state when the command loop is first entered
(`started_streaming = false`, no workers spawned). -/
def initialVideoLoopState : VideoLoopState :=
  { started_streaming := false, captureWorkers := 0, encodeWorkers := 0, idrRequests := 0 }

/-- One iteration of the command loop in `VideoStreamInner::run`.
`none` models `run` returning early with an error (`?` on CUDA, capturer,
encoder or frame-buffer failure; the IDR broadcast send cannot fail while
the loop holds its receiver, but its `?` is modelled faithfully as
impossible-to-fail).  On `Start`:
  * when `started_streaming` is already set, warn and `continue`;
  * a capture-thread spawn failure `continue`s before any worker starts;
  * an encode-thread spawn failure `continue`s after the capture worker
    was spawned, leaving `started_streaming` unset;
  * otherwise both workers start and `started_streaming` is set. -/
def videoCommandStep (st : VideoLoopState) (cmd : VideoCommand) : Option VideoLoopState :=
  match cmd with
  | .requestIdrFrame => some { st with idrRequests := st.idrRequests + 1 }
  | .start env =>
      if st.started_streaming then some st
      else if !env.cudaOk then none
      else if !env.capturerOk then none
      else if !env.encoderOk then none
      else if !env.buffersOk then none
      else if !env.captureSpawnOk then some st
      else if !env.encodeSpawnOk then
        some { st with captureWorkers := st.captureWorkers + 1 }
      else
        some { st with started_streaming := true,
                       captureWorkers := st.captureWorkers + 1,
                       encodeWorkers := st.encodeWorkers + 1 }

end Video


/-! ## Concrete inputs used by witnesses and counterexamples -/

/-- A pairing environment in which `check_client_pairing_secret` and
`server_challenge_response` fail (cryptographic mismatch or other
client-manager error) while everything else succeeds. -/
def pairingEnvProcessingFailure : Pairing.PairingEnv :=
  { startPairingOk := true, clientChallengeResult := none, serverChallengeResult := none,
    checkPairingSecretOk := false, clientCertParses := true, serverPemBytes := some [] }

/-- A well-formed `clientpairingsecret` request (valid 16-byte hex secret,
`uniqueid` present). -/
def clientPairingSecretRequest : Pairing.Params :=
  [("clientpairingsecret", "00112233445566778899aabbccddeeff"),
   ("uniqueid", "0123456789ABCDEF")]
/-- An SDP session missing the `x-nv-video[0].clientViewportWd` attribute
(all other required attributes present). -/
def announceSdpMissingWidth : Rtsp.SdpSession :=
  [("x-nv-video[0].clientViewportHt", some "1080"),
   ("x-nv-video[0].maxFPS", some "60"),
   ("x-nv-video[0].packetSize", some "1024"),
   ("x-nv-vqos[0].bw.maximumBitrateKbps", some "20000"),
   ("x-nv-vqos[0].fec.minRequiredFecPackets", some "2"),
   ("x-nv-vqos[0].qosTrafficType", some "1"),
   ("x-nv-aqos.packetDuration", some "5"),
   ("x-nv-aqos.qosTrafficType", some "1")]
/-- An SDP session with all nine required attributes and an enormous (but
parseable) `maximumBitrateKbps` of `2^54` kbps. -/
def announceOverflowSdp : Rtsp.SdpSession :=
  [("x-nv-video[0].clientViewportWd", some "1920"),
   ("x-nv-video[0].clientViewportHt", some "1080"),
   ("x-nv-video[0].maxFPS", some "60"),
   ("x-nv-video[0].packetSize", some "1024"),
   ("x-nv-vqos[0].bw.maximumBitrateKbps", some "18014398509481984"),
   ("x-nv-vqos[0].fec.minRequiredFecPackets", some "2"),
   ("x-nv-vqos[0].qosTrafficType", some "1"),
   ("x-nv-aqos.packetDuration", some "5"),
   ("x-nv-aqos.qosTrafficType", some "1")]
/-- An ordinary, fully populated SDP session (20000 kbps, packet size
1024). -/
def announceNormalSdp : Rtsp.SdpSession :=
  [("x-nv-video[0].clientViewportWd", some "1920"),
   ("x-nv-video[0].clientViewportHt", some "1080"),
   ("x-nv-video[0].maxFPS", some "60"),
   ("x-nv-video[0].packetSize", some "1024"),
   ("x-nv-vqos[0].bw.maximumBitrateKbps", some "20000"),
   ("x-nv-vqos[0].fec.minRequiredFecPackets", some "2"),
   ("x-nv-vqos[0].qosTrafficType", some "1"),
   ("x-nv-aqos.packetDuration", some "5"),
   ("x-nv-aqos.qosTrafficType", some "1")]

/-- The contexts extracted from `announceNormalSdp`. -/
def announceNormalContexts : Rtsp.VideoStreamContext × Rtsp.AudioStreamContext :=
  ({ width := 1920, height := 1080, fps := 60, packet_size := 1024,
     bitrate := 20480000, minimum_fec_packets := 2, qos := true },
   { packet_duration := 5, qos := true })
/-- An SDP session identical to `announceNormalSdp` but with
`packetSize = 0`. -/
def announcePacketSizeZeroSdp : Rtsp.SdpSession :=
  [("x-nv-video[0].clientViewportWd", some "1920"),
   ("x-nv-video[0].clientViewportHt", some "1080"),
   ("x-nv-video[0].maxFPS", some "60"),
   ("x-nv-video[0].packetSize", some "0"),
   ("x-nv-vqos[0].bw.maximumBitrateKbps", some "20000"),
   ("x-nv-vqos[0].fec.minRequiredFecPackets", some "2"),
   ("x-nv-vqos[0].qosTrafficType", some "1"),
   ("x-nv-aqos.packetDuration", some "5"),
   ("x-nv-aqos.qosTrafficType", some "1")]
/-- A concrete SETUP request as Moonlight sends it for the video stream. -/
def setupVideoRequest : Rtsp.SetupRequest :=
  { version := .V1_0,
    transports := .ok (some [.Other]),
    uriQuery := some [("streamid", "video/0/0")] }

/-! ## Helper lemmas -/

namespace Rtsp

/-- Unfolding of a successful `announceContexts`: every required attribute
parsed, and the contexts are built from the parsed values. -/
theorem announceContexts_elim {sdp : SdpSession} {ctxs : VideoStreamContext × AudioStreamContext}
    (h : announceContexts sdp = some ctxs) :
    ∃ width height fps packet_size bitrate minimum_fec_packets video_qos_type
      packet_duration audio_qos_type,
      get_sdp_attribute_nat sdp "x-nv-video[0].clientViewportWd" U32_MAX = some width ∧
      get_sdp_attribute_nat sdp "x-nv-video[0].clientViewportHt" U32_MAX = some height ∧
      get_sdp_attribute_nat sdp "x-nv-video[0].maxFPS" U32_MAX = some fps ∧
      get_sdp_attribute_nat sdp "x-nv-video[0].packetSize" USIZE_MAX = some packet_size ∧
      get_sdp_attribute_nat sdp "x-nv-vqos[0].bw.maximumBitrateKbps" USIZE_MAX = some bitrate ∧
      get_sdp_attribute_nat sdp "x-nv-vqos[0].fec.minRequiredFecPackets" U32_MAX = some minimum_fec_packets ∧
      get_sdp_attribute_string sdp "x-nv-vqos[0].qosTrafficType" = some video_qos_type ∧
      get_sdp_attribute_nat sdp "x-nv-aqos.packetDuration" U32_MAX = some packet_duration ∧
      get_sdp_attribute_string sdp "x-nv-aqos.qosTrafficType" = some audio_qos_type ∧
      ctxs = ({ width := width, height := height, fps := fps, packet_size := packet_size,
                bitrate := bitrate * 1024 % USIZE_MOD,
                minimum_fec_packets := minimum_fec_packets,
                qos := video_qos_type != "0" },
              { packet_duration := packet_duration, qos := audio_qos_type != "0" }) := by
  unfold announceContexts at h
  cases e1 : get_sdp_attribute_nat sdp "x-nv-video[0].clientViewportWd" U32_MAX with
  | none => rw [e1] at h; exact Option.noConfusion h
  | some width =>
  rw [e1] at h
  cases e2 : get_sdp_attribute_nat sdp "x-nv-video[0].clientViewportHt" U32_MAX with
  | none => rw [e2] at h; exact Option.noConfusion h
  | some height =>
  rw [e2] at h
  cases e3 : get_sdp_attribute_nat sdp "x-nv-video[0].maxFPS" U32_MAX with
  | none => rw [e3] at h; exact Option.noConfusion h
  | some fps =>
  rw [e3] at h
  cases e4 : get_sdp_attribute_nat sdp "x-nv-video[0].packetSize" USIZE_MAX with
  | none => rw [e4] at h; exact Option.noConfusion h
  | some packet_size =>
  rw [e4] at h
  cases e5 : get_sdp_attribute_nat sdp "x-nv-vqos[0].bw.maximumBitrateKbps" USIZE_MAX with
  | none => rw [e5] at h; exact Option.noConfusion h
  | some bitrate =>
  rw [e5] at h
  cases e6 : get_sdp_attribute_nat sdp "x-nv-vqos[0].fec.minRequiredFecPackets" U32_MAX with
  | none => rw [e6] at h; exact Option.noConfusion h
  | some minimum_fec_packets =>
  rw [e6] at h
  cases e7 : get_sdp_attribute_string sdp "x-nv-vqos[0].qosTrafficType" with
  | none => rw [e7] at h; exact Option.noConfusion h
  | some video_qos_type =>
  rw [e7] at h
  cases e8 : get_sdp_attribute_nat sdp "x-nv-aqos.packetDuration" U32_MAX with
  | none => rw [e8] at h; exact Option.noConfusion h
  | some packet_duration =>
  rw [e8] at h
  cases e9 : get_sdp_attribute_string sdp "x-nv-aqos.qosTrafficType" with
  | none => rw [e9] at h; exact Option.noConfusion h
  | some audio_qos_type =>
  rw [e9] at h
  exact ⟨width, height, fps, packet_size, bitrate, minimum_fec_packets, video_qos_type,
    packet_duration, audio_qos_type, rfl, rfl, rfl, rfl, rfl, rfl, rfl, rfl, rfl,
    (Option.some.inj h).symm⟩

/-- If any required attribute fails to parse, `announceContexts` fails. -/
theorem announceContexts_none_of {sdp : SdpSession}
    (h : get_sdp_attribute_nat sdp "x-nv-video[0].clientViewportWd" U32_MAX = none ∨
         get_sdp_attribute_nat sdp "x-nv-video[0].clientViewportHt" U32_MAX = none ∨
         get_sdp_attribute_nat sdp "x-nv-video[0].maxFPS" U32_MAX = none ∨
         get_sdp_attribute_nat sdp "x-nv-video[0].packetSize" USIZE_MAX = none ∨
         get_sdp_attribute_nat sdp "x-nv-vqos[0].bw.maximumBitrateKbps" USIZE_MAX = none ∨
         get_sdp_attribute_nat sdp "x-nv-vqos[0].fec.minRequiredFecPackets" U32_MAX = none ∨
         get_sdp_attribute_string sdp "x-nv-vqos[0].qosTrafficType" = none ∨
         get_sdp_attribute_nat sdp "x-nv-aqos.packetDuration" U32_MAX = none ∨
         get_sdp_attribute_string sdp "x-nv-aqos.qosTrafficType" = none) :
    announceContexts sdp = none := by
  cases ae : announceContexts sdp with
  | none => rfl
  | some ctxs =>
    exfalso
    obtain ⟨w, ht, f, ps, b, m, vq, pd, aq, e1, e2, e3, e4, e5, e6, e7, e8, e9, _⟩ :=
      announceContexts_elim ae
    rcases h with h | h | h | h | h | h | h | h | h <;>
      simp_all

end Rtsp

namespace Pairing

/-- A successful lookup implies the key is present. -/
theorem Params.containsKey_of_get {ps : Params} {k : String} {v : String}
    (h : ps.get k = some v) : ps.containsKey k = true := by
  unfold Params.get at h
  unfold Params.containsKey
  cases hfind : ps.find? (fun p => p.1 == k) with
  | none => rw [hfind] at h; exact Option.noConfusion h
  | some p =>
    have hmem := List.mem_of_find?_eq_some hfind
    have hpred := List.find?_some hfind
    simp only [List.any_eq_true]
    exact ⟨p, hmem, hpred⟩

end Pairing

/-! ## Claim theorems -/

/-- Claim C7: a `/pair` request whose `phrase` parameter is neither
`getservercert` nor `pairchallenge` is answered with HTTP 400 and the body
`Unknown pair phrase received: <value>`. -/
theorem pair_unknown_phrase_bad_request (params : Pairing.Params) (env : Pairing.PairingEnv)
    (phrase : String)
    (hget : params.get "phrase" = some phrase)
    (h1 : phrase ≠ "getservercert") (h2 : phrase ≠ "pairchallenge") :
    Pairing.handle_pair_request params env =
      Pairing.bad_request ("Unknown pair phrase received: " ++ phrase) := by
  have hcontains := Pairing.Params.containsKey_of_get hget
  unfold Pairing.handle_pair_request
  rw [hcontains]
  simp only [if_true, hget]

/-- Witness for C7 at a concrete request: `phrase=bogus`. -/
theorem pair_unknown_phrase_bad_request_witness :
    Pairing.handle_pair_request [("phrase", "bogus")]
      { startPairingOk := true, clientChallengeResult := none, serverChallengeResult := none,
        checkPairingSecretOk := true, clientCertParses := true, serverPemBytes := none } =
      Pairing.bad_request "Unknown pair phrase received: bogus" :=
  pair_unknown_phrase_bad_request _ _ "bogus" rfl (by decide) (by decide)


/-- Counterexample to claim C2: a `clientpairingsecret` request whose input
parses but whose cryptographic check fails is answered with HTTP 400 (the
`bad_request` helper), not with HTTP 200 and a body containing
`<paired>0</paired>`. -/
theorem pairing_failure_not_paired_zero_cex :
    (Pairing.handle_pair_request clientPairingSecretRequest pairingEnvProcessingFailure).status
        = 400 ∧
      ¬ ((Pairing.handle_pair_request clientPairingSecretRequest
            pairingEnvProcessingFailure).status = 200) := by
  constructor
  · rfl
  · decide

/-- Claim C2 as amended: when a pairing request's input parses but its
processing fails — the cryptographic check of `clientpairingsecret`, or the
client-manager call of `serverchallengeresp` — the handler replies with
HTTP 400 through `bad_request` (same as for parse failures); the handlers
never produce a `<paired>0</paired>` body, and status 200 with
`<paired>1</paired>` is returned only on success. -/
theorem pairing_processing_failure_returns_400
    (params : Pairing.Params) (env : Pairing.PairingEnv)
    (secret resp uid : String) (secretBytes respBytes : Bytes) :
    (params.get "clientpairingsecret" = some secret →
     hexDecode secret = some secretBytes →
     params.get "uniqueid" = some uid →
     env.checkPairingSecretOk = false →
     Pairing.client_pairing_secret params env =
       Pairing.bad_request "Failed to check client pairing secret") ∧
    (params.get "serverchallengeresp" = some resp →
     hexDecode resp = some respBytes →
     params.get "uniqueid" = some uid →
     env.serverChallengeResult = none →
     Pairing.server_challenge_response params env =
       Pairing.bad_request "Failed to process server challenge response") := by
  constructor
  · intro h1 h2 h3 h4
    simp only [Pairing.client_pairing_secret, h1, h2, h3, h4, Bool.not_false, if_true]
  · intro h1 h2 h3 h4
    simp only [Pairing.server_challenge_response, h1, h2, h3, h4]

/-- Witness for the amended C2 at concrete failing requests. -/
theorem pairing_processing_failure_returns_400_witness :
    Pairing.client_pairing_secret clientPairingSecretRequest pairingEnvProcessingFailure =
        Pairing.bad_request "Failed to check client pairing secret" ∧
      Pairing.server_challenge_response
          [("serverchallengeresp", "00112233445566778899aabbccddeeff00112233445566778899aabbccddeeff"),
           ("uniqueid", "0123456789ABCDEF")] pairingEnvProcessingFailure =
        Pairing.bad_request "Failed to process server challenge response" := by
  have h := pairing_processing_failure_returns_400 clientPairingSecretRequest
    pairingEnvProcessingFailure "00112233445566778899aabbccddeeff"
    "x" "0123456789ABCDEF" [0x00, 0x11, 0x22, 0x33, 0x44, 0x55, 0x66, 0x77,
      0x88, 0x99, 0xaa, 0xbb, 0xcc, 0xdd, 0xee, 0xff] []
  have h2 := pairing_processing_failure_returns_400
    [("serverchallengeresp", "00112233445566778899aabbccddeeff00112233445566778899aabbccddeeff"),
     ("uniqueid", "0123456789ABCDEF")] pairingEnvProcessingFailure "x"
    "00112233445566778899aabbccddeeff00112233445566778899aabbccddeeff"
    "0123456789ABCDEF" []
    [0x00, 0x11, 0x22, 0x33, 0x44, 0x55, 0x66, 0x77,
     0x88, 0x99, 0xaa, 0xbb, 0xcc, 0xdd, 0xee, 0xff,
     0x00, 0x11, 0x22, 0x33, 0x44, 0x55, 0x66, 0x77,
     0x88, 0x99, 0xaa, 0xbb, 0xcc, 0xdd, 0xee, 0xff]
  exact ⟨h.1 (by rfl) (by decide) (by rfl) (by rfl),
         h2.2 (by rfl) (by decide) (by rfl) (by rfl)⟩

/-- Claim C1: the Session Manager holds at most one Session at any instant.
Processing `InitializeSession` while a session is active leaves the manager
state unchanged (the existing Session is kept, the new context dropped); a
new Session is created only when no session is active; and over any event
sequence the manager never holds more than one Session. -/
theorem session_manager_at_most_one_session {C V A : Type}
    (st : SessionMgr.SessionManagerInner C V A) (ctx : C) (newOk : Bool) :
    (st.session.isSome →
      SessionMgr.sessionManagerStep st (.initializeSession ctx newOk) = st) ∧
    (st.session = none → newOk = true →
      (SessionMgr.sessionManagerStep st (.initializeSession ctx newOk)).session =
        some { context := ctx, running := false }) ∧
    (∀ events : List (SessionMgr.SessionManagerEvent C V A),
      SessionMgr.sessionCount (SessionMgr.sessionManagerRun events) ≤ 1) := by
  refine ⟨?_, ?_, ?_⟩
  · intro h
    simp only [SessionMgr.sessionManagerStep, h, if_true]
  · intro h hok
    simp only [SessionMgr.sessionManagerStep, h, hok, Option.isSome_none, Bool.false_eq_true,
      if_false, if_true]
  · intro events
    unfold SessionMgr.sessionCount
    cases (SessionMgr.sessionManagerRun (C := C) (V := V) (A := A) events).session with
    | some _ => exact le_refl 1
    | none => exact Nat.zero_le 1

/-- Witness for C1 at concrete states: a manager already holding a session
ignores `InitializeSession`, and an empty manager creates the session. -/
theorem session_manager_at_most_one_session_witness :
    (SessionMgr.sessionManagerStep
        (C := Nat) (V := Nat) (A := Nat)
        { session := some { context := 7, running := false },
          video_stream_context := none, audio_stream_context := none }
        (.initializeSession 9 true) =
      { session := some { context := 7, running := false },
        video_stream_context := none, audio_stream_context := none }) ∧
    ((SessionMgr.sessionManagerStep
        (C := Nat) (V := Nat) (A := Nat)
        (SessionMgr.SessionManagerInner.default Nat Nat Nat)
        (.initializeSession 9 true)).session = some { context := 9, running := false }) := by
  constructor
  · exact (session_manager_at_most_one_session _ 9 true).1 rfl
  · exact (session_manager_at_most_one_session _ 9 true).2.1 rfl rfl

/-- Claim C9: the outbound video packet queue between encoder and socket is
bounded at 1024 packets; enqueuing into a full queue drops the oldest queued
packet and admits the new one (which becomes the newest entry). -/
theorem video_packet_queue_bounded_drops_oldest (queue : List Bytes) (p : Bytes)
    (h : queue.length ≤ Video.videoPacketQueueCapacity) :
    Video.videoPacketQueueCapacity = 1024 ∧
    (Video.enqueuePacket queue p).length ≤ Video.videoPacketQueueCapacity ∧
    (queue.length = Video.videoPacketQueueCapacity →
      Video.enqueuePacket queue p = queue.tail ++ [p]) ∧
    (Video.enqueuePacket queue p).getLast? = some p := by
  refine ⟨rfl, ?_, ?_, ?_⟩
  · unfold Video.enqueuePacket
    split
    · next hlt =>
      rw [List.length_append, List.length_singleton]
      exact hlt
    · next hge =>
      rw [List.length_append, List.length_singleton, List.length_tail]
      have hfull : queue.length = Video.videoPacketQueueCapacity :=
        le_antisymm h (not_lt.mp hge)
      rw [hfull]
      simp [Video.videoPacketQueueCapacity]
  · intro hfull
    unfold Video.enqueuePacket
    rw [hfull]
    simp
  · unfold Video.enqueuePacket
    split <;> exact List.getLast?_concat _

/-- Witness for C9 at a concrete full queue of 1024 one-byte packets. -/
theorem video_packet_queue_bounded_drops_oldest_witness :
    (Video.enqueuePacket (List.replicate 1024 [0]) [1]).length ≤
        Video.videoPacketQueueCapacity ∧
      Video.enqueuePacket (List.replicate 1024 [0]) [1] =
        (List.replicate 1024 ([0] : Bytes)).tail ++ [[1]] := by
  have h := video_packet_queue_bounded_drops_oldest (List.replicate 1024 [0]) [1]
    (by rw [List.length_replicate]; exact Nat.le_refl _)
  exact ⟨h.2.1, h.2.2.1 (by rw [List.length_replicate]; rfl)⟩

/-- Claim C10: once streaming has started (`started_streaming = true`),
every later `Start` command is ignored — the loop state is unchanged and no
capture or encode worker is spawned — and no command ever resets
`started_streaming`. -/
theorem video_start_idempotent_after_success (st : Video.VideoLoopState)
    (env : Video.StartEnv) (h : st.started_streaming = true) :
    Video.videoCommandStep st (.start env) = some st ∧
    (∀ (cmd : Video.VideoCommand) (st' : Video.VideoLoopState),
      Video.videoCommandStep st cmd = some st' → st'.started_streaming = true) := by
  constructor
  · simp only [Video.videoCommandStep, h, if_true]
  · intro cmd st' hstep
    cases cmd with
    | requestIdrFrame =>
      simp only [Video.videoCommandStep] at hstep
      cases hstep
      exact h
    | start env' =>
      simp only [Video.videoCommandStep, h, if_true] at hstep
      cases hstep
      exact h

/-- Witness for C10 at a concrete started state. -/
theorem video_start_idempotent_after_success_witness :
    Video.videoCommandStep
        { started_streaming := true, captureWorkers := 1, encodeWorkers := 1, idrRequests := 0 }
        (.start { cudaOk := true, capturerOk := true, encoderOk := true, buffersOk := true,
                  captureSpawnOk := true, encodeSpawnOk := true }) =
      some { started_streaming := true, captureWorkers := 1, encodeWorkers := 1,
             idrRequests := 0 } :=
  (video_start_idempotent_after_success _ _ rfl).1

namespace Rtsp

/-- Unfolding of `handle_announce_request` on a successfully parsed body. -/
theorem handle_announce_request_some (version : Version) (cseq : Int) (sdp : SdpSession)
    (sendOk : Bool) :
    handle_announce_request version cseq (some sdp) sendOk =
      (match announceContexts sdp with
       | none => { response := rtsp_response cseq version .BadRequest, sent := none }
       | some contexts =>
         if sendOk then
           { response := { status := .Ok, version := version, cseq := cseq,
                           session := none, transport := none, publicHdr := none, body := [] },
             sent := some contexts }
         else
           { response := rtsp_response cseq version .InternalServerError,
             sent := some contexts }) := rfl

/-- If `handle_announce_request` pushed contexts, they are exactly the ones
extracted from the SDP session. -/
theorem handle_announce_sent_eq {version : Version} {cseq : Int} {sdp : SdpSession}
    {sendOk : Bool} {ctxs : VideoStreamContext × AudioStreamContext}
    (hs : (handle_announce_request version cseq (some sdp) sendOk).sent = some ctxs) :
    announceContexts sdp = some ctxs := by
  rw [handle_announce_request_some] at hs
  cases hac : announceContexts sdp with
  | none => rw [hac] at hs; exact Option.noConfusion hs
  | some c =>
    rw [hac] at hs
    cases sendOk <;> simp only [if_true, if_false, Bool.false_eq_true] at hs <;> exact hs

/-- When extraction succeeds and the channel send succeeds, the response
status is `Ok`. -/
theorem handle_announce_ok_of_contexts {version : Version} {cseq : Int} {sdp : SdpSession}
    {ctxs : VideoStreamContext × AudioStreamContext}
    (hac : announceContexts sdp = some ctxs) :
    (handle_announce_request version cseq (some sdp) true).response.status = StatusCode.Ok := by
  rw [handle_announce_request_some, hac]
  rfl

end Rtsp

/-- Claim C3: an ANNOUNCE whose SDP body lacks (or fails to parse) any one
of the nine required stream attributes is answered with 400 BadRequest, and
no `SetStreamContext` is pushed to the Session Manager. -/
theorem announce_missing_attribute_rejected (version : Rtsp.Version) (cseq : Int)
    (sdp : Rtsp.SdpSession) (sendOk : Bool)
    (h : Rtsp.get_sdp_attribute_nat sdp "x-nv-video[0].clientViewportWd" U32_MAX = none ∨
         Rtsp.get_sdp_attribute_nat sdp "x-nv-video[0].clientViewportHt" U32_MAX = none ∨
         Rtsp.get_sdp_attribute_nat sdp "x-nv-video[0].maxFPS" U32_MAX = none ∨
         Rtsp.get_sdp_attribute_nat sdp "x-nv-video[0].packetSize" USIZE_MAX = none ∨
         Rtsp.get_sdp_attribute_nat sdp "x-nv-vqos[0].bw.maximumBitrateKbps" USIZE_MAX = none ∨
         Rtsp.get_sdp_attribute_nat sdp "x-nv-vqos[0].fec.minRequiredFecPackets" U32_MAX = none ∨
         Rtsp.get_sdp_attribute_string sdp "x-nv-vqos[0].qosTrafficType" = none ∨
         Rtsp.get_sdp_attribute_nat sdp "x-nv-aqos.packetDuration" U32_MAX = none ∨
         Rtsp.get_sdp_attribute_string sdp "x-nv-aqos.qosTrafficType" = none) :
    (Rtsp.handle_announce_request version cseq (some sdp) sendOk).response.status =
        Rtsp.StatusCode.BadRequest ∧
      (Rtsp.handle_announce_request version cseq (some sdp) sendOk).sent = none := by
  have hac := Rtsp.announceContexts_none_of h
  rw [Rtsp.handle_announce_request_some, hac]
  exact ⟨rfl, rfl⟩


/-- Witness for C3 at a concrete session missing the width attribute. -/
theorem announce_missing_attribute_rejected_witness :
    (Rtsp.handle_announce_request .V1_0 4 (some announceSdpMissingWidth) true).response.status =
        Rtsp.StatusCode.BadRequest ∧
      (Rtsp.handle_announce_request .V1_0 4 (some announceSdpMissingWidth) true).sent = none :=
  announce_missing_attribute_rejected .V1_0 4 announceSdpMissingWidth true
    (Or.inl (by decide))


/-- Counterexample to claim C4: `bitrate *= 1024` is `usize` arithmetic, so
for `maximumBitrateKbps = 2^54` the successfully handled ANNOUNCE stores
bitrate `2^54 * 1024 mod 2^64 = 0`, not `2^54 * 1024`. -/
theorem announce_bitrate_overflow_cex :
    ((Rtsp.handle_announce_request .V1_0 1 (some announceOverflowSdp) true).sent.map
        (fun c => c.1.bitrate)) = some 0 ∧
      (0 : Nat) ≠ 18014398509481984 * 1024 := by
  constructor
  · rfl
  · decide

/-- Claim C4 as amended: for every successfully handled ANNOUNCE, the stored
bitrate is the parsed `x-nv-vqos[0].bw.maximumBitrateKbps` multiplied by
1024 modulo `2^64` (`usize` wrap-around); it equals exactly kbps·1024
whenever that product fits in a `usize`. -/
theorem announce_bitrate_is_kbps_times_1024 (version : Rtsp.Version) (cseq : Int)
    (sdp : Rtsp.SdpSession) (kbps : Nat)
    (ctxs : Rtsp.VideoStreamContext × Rtsp.AudioStreamContext)
    (hb : Rtsp.get_sdp_attribute_nat sdp "x-nv-vqos[0].bw.maximumBitrateKbps" USIZE_MAX =
      some kbps)
    (hs : (Rtsp.handle_announce_request version cseq (some sdp) true).sent = some ctxs) :
    ctxs.1.bitrate = kbps * 1024 % USIZE_MOD ∧
      (kbps * 1024 < USIZE_MOD → ctxs.1.bitrate = kbps * 1024) := by
  have hac := Rtsp.handle_announce_sent_eq hs
  obtain ⟨w, ht, f, ps, b, m, vq, pd, aq, _, _, _, _, e5, _, _, _, _, hctx⟩ :=
    Rtsp.announceContexts_elim hac
  have hkb : b = kbps := Option.some.inj (e5.symm.trans hb)
  subst hkb
  constructor
  · rw [hctx]
  · intro hfit
    rw [hctx]
    exact Nat.mod_eq_of_lt hfit


/-- Witness for the amended C4 at a concrete 20000-kbps ANNOUNCE. -/
theorem announce_bitrate_is_kbps_times_1024_witness :
    announceNormalContexts.1.bitrate = 20000 * 1024 % USIZE_MOD ∧
      (20000 * 1024 < USIZE_MOD → announceNormalContexts.1.bitrate = 20000 * 1024) :=
  announce_bitrate_is_kbps_times_1024 .V1_0 1 announceNormalSdp 20000
    announceNormalContexts (by decide) (by rfl)


/-- Counterexample to claim C5: an ANNOUNCE with `packet_size = 0` is NOT
rejected — the response status is `Ok` and a stream context with
`packet_size = 0` is pushed to the Session Manager. -/
theorem announce_packet_size_zero_accepted_cex :
    (Rtsp.handle_announce_request .V1_0 2 (some announcePacketSizeZeroSdp) true).response.status =
        Rtsp.StatusCode.Ok ∧
      ((Rtsp.handle_announce_request .V1_0 2 (some announcePacketSizeZeroSdp) true).sent.map
          (fun c => c.1.packet_size)) = some 0 := by
  constructor
  · rfl
  · rfl

/-- Claim C5 as amended: `handle_announce_request` performs no range check
on `packet_size` — every value that parses as a `usize` (including 0 and
values above any MTU-safe maximum) is accepted, the stream context is
pushed with exactly the parsed value, and the request succeeds whenever the
remaining attributes parse. -/
theorem announce_packet_size_unvalidated (version : Rtsp.Version) (cseq : Int)
    (sdp : Rtsp.SdpSession) (n : Nat)
    (ctxs : Rtsp.VideoStreamContext × Rtsp.AudioStreamContext)
    (hp : Rtsp.get_sdp_attribute_nat sdp "x-nv-video[0].packetSize" USIZE_MAX = some n)
    (hs : (Rtsp.handle_announce_request version cseq (some sdp) true).sent = some ctxs) :
    ctxs.1.packet_size = n ∧
      (Rtsp.handle_announce_request version cseq (some sdp) true).response.status =
        Rtsp.StatusCode.Ok := by
  have hac := Rtsp.handle_announce_sent_eq hs
  obtain ⟨w, ht, f, ps, b, m, vq, pd, aq, _, _, _, e4, _, _, _, _, _, hctx⟩ :=
    Rtsp.announceContexts_elim hac
  have hpn : ps = n := Option.some.inj (e4.symm.trans hp)
  subst hpn
  exact ⟨by rw [hctx], Rtsp.handle_announce_ok_of_contexts hac⟩

/-- Witness for the amended C5 at the concrete `packet_size = 0` session. -/
theorem announce_packet_size_unvalidated_witness :
    ({ width := 1920, height := 1080, fps := 60, packet_size := 0,
       bitrate := 20480000, minimum_fec_packets := 2,
       qos := true } : Rtsp.VideoStreamContext).packet_size = 0 ∧
      (Rtsp.handle_announce_request .V1_0 2 (some announcePacketSizeZeroSdp) true).response.status =
        Rtsp.StatusCode.Ok :=
  announce_packet_size_unvalidated .V1_0 2 announcePacketSizeZeroSdp 0
    ({ width := 1920, height := 1080, fps := 60, packet_size := 0,
       bitrate := 20480000, minimum_fec_packets := 2, qos := true },
     { packet_duration := 5, qos := true }) (by decide) (by rfl)

namespace Video

/-- The address component of one socket-task step is exactly the PING
update: only a PING datagram changes `client_address`. -/
theorem socketStep_fst (a : Option Addr) (e : SocketEvent) :
    (socketStep a e).1 = pingUpd a e := by
  cases e with
  | packet p => cases a <;> rfl
  | datagram payload addr =>
    by_cases h : payload = PING <;> simp [socketStep, pingUpd, h]

/-- The address after running the socket task is the fold of the PING
updates. -/
theorem socketRunFrom_fst (a : Option Addr) (events : List SocketEvent) :
    (socketRunFrom a events).1 = events.foldl pingUpd a := by
  induction events generalizing a with
  | nil => rfl
  | cons e rest ih =>
    rcases hstep : socketStep a e with ⟨a1, s1⟩
    rcases hrun : socketRunFrom a1 rest with ⟨a2, s2⟩
    simp only [socketRunFrom, hstep, hrun, List.foldl_cons]
    have h1 : pingUpd a e = a1 := by rw [← socketStep_fst, hstep]
    rw [h1]
    have := ih a1
    rw [hrun] at this
    exact this

/-- Without any PING in the trace, the socket task keeps no client address
and sends nothing. -/
theorem socketRunFrom_none_of_no_ping (events : List SocketEvent)
    (h : hasPing events = false) :
    socketRunFrom none events = (none, []) := by
  induction events with
  | nil => rfl
  | cons e rest ih =>
    have hrest : hasPing rest = false := by
      unfold hasPing at h ⊢
      cases e <;> simp only [List.any_cons, Bool.or_eq_false_iff] at h <;> exact h.2
    have hstep : socketStep none e = (none, []) := by
      cases e with
      | packet p => rfl
      | datagram payload addr =>
        have hne : ¬ payload = PING := by
          unfold hasPing at h
          simp only [List.any_cons, Bool.or_eq_false_iff, decide_eq_false_iff_not] at h
          exact h.1
        simp [socketStep, hne]
    simp only [socketRunFrom, hstep, ih hrest, List.append_nil]

/-- Running the socket task over a concatenated trace: the second part
starts from the address the first part ended with, and the sends are
concatenated. -/
theorem socketRunFrom_append (a : Option Addr) (tr1 tr2 : List SocketEvent) :
    socketRunFrom a (tr1 ++ tr2) =
      ((socketRunFrom (socketRunFrom a tr1).1 tr2).1,
       (socketRunFrom a tr1).2 ++ (socketRunFrom (socketRunFrom a tr1).1 tr2).2) := by
  induction tr1 generalizing a with
  | nil => simp [socketRunFrom]
  | cons e rest ih =>
    rcases hstep : socketStep a e with ⟨a1, s1⟩
    simp only [List.cons_append, socketRunFrom, hstep, List.append_eq, ih a1, List.append_assoc]

end Video

/-- Claim C8: the video UDP task sends no media packet before the first
PING datagram arrives; its remembered client address is always the source
of the most recent PING; and a media packet dequeued after some PING is
sent to exactly that address (a packet dequeued before any PING is
dropped). -/
theorem video_ping_gating (tr : List Video.SocketEvent) (p : Bytes) :
    ((Video.socketRun tr).1 = Video.lastPingAddr tr) ∧
    (Video.hasPing tr = false → (Video.socketRun tr).2 = []) ∧
    ((Video.socketRun (tr ++ [Video.SocketEvent.packet p])).2 =
      (Video.socketRun tr).2 ++
        (match Video.lastPingAddr tr with
         | none => []
         | some a => [(p, a)])) := by
  refine ⟨Video.socketRunFrom_fst none tr, ?_, ?_⟩
  · intro h
    unfold Video.socketRun
    rw [Video.socketRunFrom_none_of_no_ping tr h]
  · unfold Video.socketRun
    rw [Video.socketRunFrom_append]
    have haddr : (Video.socketRunFrom none tr).1 = Video.lastPingAddr tr :=
      Video.socketRunFrom_fst none tr
    rw [haddr]
    cases Video.lastPingAddr tr with
    | none => simp [Video.socketRunFrom, Video.socketStep]
    | some a => simp [Video.socketRunFrom, Video.socketStep]

/-- Witness for C8 at a concrete trace: a packet dequeued before any PING
is dropped, and after a PING from address 50000 a packet goes to 50000. -/
theorem video_ping_gating_witness :
    (Video.socketRun [Video.SocketEvent.packet [7]]).2 = [] ∧
    (Video.socketRun ([Video.SocketEvent.packet [7],
        Video.SocketEvent.datagram Video.PING 50000] ++
        [Video.SocketEvent.packet [8]])).2 =
      (Video.socketRun [Video.SocketEvent.packet [7],
        Video.SocketEvent.datagram Video.PING 50000]).2 ++ [([8], 50000)] := by
  constructor
  · exact (video_ping_gating [Video.SocketEvent.packet [7]] [7]).2.1 rfl
  · have h := (video_ping_gating
      [Video.SocketEvent.packet [7], Video.SocketEvent.datagram Video.PING 50000] [8]).2.2
    rw [h]
    rfl

/-- Claim C6: a SETUP request with a (parsed, `Other`-variant) transport
header whose first request-URI query parameter is `streamid=<kind>/…` is
answered `Ok` with `Transport: server_port=<configured port for kind>` and
`Session: MoonshineSession;timeout = 90` when `kind` is `video`, `audio` or
`control`; any other kind is answered 400 BadRequest. -/
theorem setup_streamid_port_response (ports : Rtsp.StreamPorts)
    (request : Rtsp.SetupRequest) (cseq : Int) (ts : List Rtsp.TransportEntry)
    (pairs : List (String × String)) (v : String)
    (h1 : request.transports = .ok (some ts))
    (h2 : ts.head? = some .Other)
    (h3 : request.uriQuery = some pairs)
    (h4 : pairs.head? = some ("streamid", v)) :
    (Rtsp.splitFirst v = "video" →
      Rtsp.handle_setup_request ports request cseq =
        { status := .Ok, version := request.version, cseq := cseq,
          session := some "MoonshineSession;timeout = 90",
          transport := some ("server_port=" ++ toString ports.videoPort),
          publicHdr := none, body := [] }) ∧
    (Rtsp.splitFirst v = "audio" →
      Rtsp.handle_setup_request ports request cseq =
        { status := .Ok, version := request.version, cseq := cseq,
          session := some "MoonshineSession;timeout = 90",
          transport := some ("server_port=" ++ toString ports.audioPort),
          publicHdr := none, body := [] }) ∧
    (Rtsp.splitFirst v = "control" →
      Rtsp.handle_setup_request ports request cseq =
        { status := .Ok, version := request.version, cseq := cseq,
          session := some "MoonshineSession;timeout = 90",
          transport := some ("server_port=" ++ toString ports.controlPort),
          publicHdr := none, body := [] }) ∧
    (Rtsp.splitFirst v ≠ "video" → Rtsp.splitFirst v ≠ "audio" →
     Rtsp.splitFirst v ≠ "control" →
      Rtsp.handle_setup_request ports request cseq =
        Rtsp.rtsp_response cseq request.version .BadRequest) := by
  refine ⟨?_, ?_, ?_, ?_⟩
  · intro hk
    simp [Rtsp.handle_setup_request, h1, h2, h3, h4, hk]
  · intro hk
    simp [Rtsp.handle_setup_request, h1, h2, h3, h4, hk]
  · intro hk
    simp [Rtsp.handle_setup_request, h1, h2, h3, h4, hk]
  · intro hk1 hk2 hk3
    simp [Rtsp.handle_setup_request, h1, h2, h3, h4, hk1, hk2, hk3]


/-- Witness for C6: concrete video SETUP on the default ports, and a bogus
stream kind rejected. -/
theorem setup_streamid_port_response_witness :
    (Rtsp.handle_setup_request { videoPort := 47998, audioPort := 48000, controlPort := 47999 }
        setupVideoRequest 3 =
      { status := .Ok, version := .V1_0, cseq := 3,
        session := some "MoonshineSession;timeout = 90",
        transport := some "server_port=47998",
        publicHdr := none, body := [] }) ∧
    (Rtsp.handle_setup_request { videoPort := 47998, audioPort := 48000, controlPort := 47999 }
        { setupVideoRequest with uriQuery := some [("streamid", "bogus/0/0")] } 3 =
      Rtsp.rtsp_response 3 .V1_0 .BadRequest) := by
  constructor
  · exact (setup_streamid_port_response _ setupVideoRequest 3 [.Other]
      [("streamid", "video/0/0")] "video/0/0" rfl rfl rfl rfl).1 (by decide)
  · exact (setup_streamid_port_response _ _ 3 [.Other]
      [("streamid", "bogus/0/0")] "bogus/0/0" rfl rfl rfl rfl).2.2.2
      (by decide) (by decide) (by decide)
